import Mathlib

/-!
Verification of the `arch-z` installation orchestrator (`src/z.py`).

The Python program is shallowly embedded as follows.

* `InstallConfig` mirrors the dataclass of the same name (z.py lines 19-30).
* External reality is an oracle `Env`: which tools `shutil.which` finds, the
  return codes and standard output of every external process the run spawns.
  Each call site of the source has its own named oracle field, so a run is a
  pure function of the configuration and the oracle.
* A run produces a list of `Event`s in chronological order: `Event.log s` is
  one line handed to the sink (`log_func`), and `Event.act a rc` is one real
  subprocess actually spawned (with the return code the oracle assigned).
  Streamed stdout of live commands is modelled as empty: the orchestrator's
  own narration, the dry-run echo lines and the failure lines are the sink
  contents the claims speak about.
* `Act` is the structured command algebra; `render` maps each `Act` to the
  exact command string / argument vector the source builds, so the
  correspondence with the Python f-strings can be checked per constructor.
* Python control flow is modelled by a list of `Step`s run with fail-fast
  sequencing (`runSteps`): `sys.exit(1)` becomes `RunOutcome.sysExit 1`, an
  uncaught `subprocess.CalledProcessError` becomes
  `RunOutcome.procError rc cmd`, and a normal return (Python `None`) becomes
  `RunOutcome.finished`.
-/

/-- Default package list (z.py lines 14-17). -/
def default_packages : List String :=
  ["base", "linux", "linux-firmware", "btrfs-progs", "nano", "sudo",
   "networkmanager", "efibootmgr", "grub", "os-prober", "base-devel", "git"]

/-- Mirror of the `InstallConfig` dataclass (z.py lines 19-30). -/
structure InstallConfig where
  seed_device : String
  sprout_device : String
  efi_device : String
  hostname : String := "arch-z"
  username : String := "zeev"
  timezone : String := "Europe/Helsinki"
  root_password : String := ""
  user_password : String := ""
  packages : List String := default_packages
  dry_run : Bool := false
deriving Repr, DecidableEq

/-- A Python command value: either a shell line (`shell=True` call sites pass a
string) or an argument vector (call sites that pass a list). -/
inductive PyCmd where
  | sh (s : String)
  | argv (args : List String)
deriving Repr, DecidableEq

/-- How one character of a Python string prints inside `repr`, single-quote
form: backslash, single quote and newline are escaped, other characters kept
verbatim. -/
def pyEscChar (c : Char) : List Char :=
  if c = '\\' then ['\\', '\\']
  else if c = '\'' then ['\\', '\'']
  else if c = '\n' then ['\\', 'n']
  else [c]

/-- Python `repr` of a string as it appears inside `str(list)`, simplified to
the single-quote form.  (CPython picks double quotes for strings that contain
`'` but no `"`; every quoted string the orchestrator interpolates into a list
contains either none or both, so the single-quote form is the one that
matters, and the escapes of `pyEscChar` are the only ones its characters
need.) -/
def pyStrRepr (s : String) : String :=
  ⟨'\'' :: s.data.flatMap pyEscChar ++ ['\'']⟩

/-- Python `str` of a list of strings, e.g. `['a', 'b']`. -/
def pyListRepr (l : List String) : String :=
  "[" ++ String.intercalate ", " (l.map pyStrRepr) ++ "]"

/-- How a `PyCmd` prints inside an f-string (`f"... {command}"`). -/
def pyCmdStr : PyCmd → String
  | .sh s => s
  | .argv l => pyListRepr l

/-- Structured algebra of every external command `perform_installation` and
`cleanup_mount` can spawn.  `render` maps each constructor to the exact
string/vector the source builds. -/
inductive Act where
  | blkid (dev : String)
  | mountpointQ (mp : String)
  | mkfsBtrfs (label dev : String)
  | mkfsFat (dev : String)
  | mountSubvol (subvol dev mp : String)
  | mountM (dev mp : String)
  | subvolList (mp : String)
  | subvolDelete (p : String)
  | subvolCreate (p : String)
  | umountR (mp : String)
  | umountLazy (mp : String)
  | fuserKill (mp : String)
  | pacstrap (pkgs : List String)
  | genfstabU
  | genfstabP
  | archChroot (script : String)
  | btrfstune (dev : String)
  | devAdd (dev : String)
deriving Repr, DecidableEq

/-- The exact command each `Act` stands for, as built by the source
(z.py lines 212, 220, 226-228, 232, 236-240, 154-175, 246-247, 252, 285,
295-313). -/
def render : Act → PyCmd
  | .blkid dev => .sh ("blkid -s PARTUUID -o value " ++ dev)
  | .mountpointQ mp => .argv ["mountpoint", "-q", mp]
  | .mkfsBtrfs label dev => .sh ("mkfs.btrfs -f -L " ++ label ++ " " ++ dev)
  | .mkfsFat dev => .sh ("mkfs.fat -F 32 -n EFI " ++ dev)
  | .mountSubvol subvol dev mp => .sh ("mount -o subvol=" ++ subvol ++ " " ++ dev ++ " " ++ mp)
  | .mountM dev mp => .sh ("mount -m " ++ dev ++ " " ++ mp)
  | .subvolList mp => .sh ("btrfs subvolume list " ++ mp)
  | .subvolDelete p => .sh ("btrfs subvolume delete " ++ p)
  | .subvolCreate p => .sh ("btrfs su cr " ++ p)
  | .umountR mp => .sh ("umount -R " ++ mp)
  | .umountLazy mp => .sh ("umount -R -l " ++ mp)
  | .fuserKill mp => .sh ("fuser -k -m " ++ mp)
  | .pacstrap pkgs => .argv (["pacstrap", "-K", "/mnt"] ++ pkgs)
  | .genfstabU => .argv ["genfstab", "-U", "/mnt"]
  | .genfstabP => .argv ["genfstab", "-t", "PARTUUID", "/mnt"]
  | .archChroot script => .argv ["arch-chroot", "/mnt", "/usr/bin/bash", "-c", script]
  | .btrfstune dev => .sh ("btrfstune -S 1 " ++ dev)
  | .devAdd dev => .sh ("btrfs device add -f " ++ dev ++ " /mnt")

/-- One observable step of a run: a line handed to the sink, or a real
subprocess spawned (with the return code the oracle assigned to it). -/
inductive Event where
  | log (s : String)
  | act (a : Act) (rc : Nat)
deriving Repr, DecidableEq

/-- The sink transcript of a run: the `log` events in order. -/
def sinkLines (evs : List Event) : List String :=
  evs.filterMap (fun e => match e with | .log s => some s | .act _ _ => none)

/-- The real subprocesses a run spawned, in order. -/
def actsOf (evs : List Event) : List Act :=
  evs.filterMap (fun e => match e with | .log _ => none | .act a _ => some a)

/-- How `perform_installation` can end: a normal Python return (`None`), a
`sys.exit` (from `run_command`'s error handler, z.py line 59), or an uncaught
`subprocess.CalledProcessError` (raised by `run_live_command`, z.py line 129,
or a `check=True` `subprocess.run`, z.py lines 252/313). -/
inductive RunOutcome where
  | finished
  | sysExit (code : Nat)
  | procError (returncode : Nat) (cmd : PyCmd)
deriving Repr, DecidableEq

/-- Return codes the oracle assigns to the (up to) three unmount attempts of
one `cleanup_mount` call. -/
structure CleanupRCs where
  rc1 : Nat
  rc2 : Nat
  rc3 : Nat
deriving Repr, DecidableEq

/-- Mirror of `cleanup_mount` (z.py lines 147-179): plain recursive unmount,
then (if `fuser` exists) kill holders and retry, then lazy unmount.  Returns
the emitted events and the boolean result.  The `fuser -k` call ignores its
return code in the source, so the event records 0. -/
def cleanup_mount (fuserAvail : Bool) (o : CleanupRCs) (mp : String) :
    List Event × Bool :=
  let e1 := [Event.log ("Unmounting " ++ mp ++ "..."),
             Event.act (.umountR mp) o.rc1]
  if o.rc1 = 0 then (e1, true)
  else
    let e2 := e1 ++ [Event.log ("Unmount failed. Checking for busy processes on " ++ mp ++ "...")]
    let e3 := e2 ++
      (if fuserAvail then
        [Event.log "Killing processes accessing the mount point...",
         Event.act (.fuserKill mp) 0]
      else
        [Event.log "Warning: 'fuser' not found. Cannot automatically kill busy processes."])
    let e4 := e3 ++ [Event.act (.umountR mp) o.rc2]
    if o.rc2 = 0 then (e4, true)
    else
      let e5 := e4 ++ [Event.log "Force/Lazy unmounting...",
                       Event.act (.umountLazy mp) o.rc3]
      if o.rc3 ≠ 0 then
        (e5 ++ [Event.log ("Critical: Failed to unmount " ++ mp ++ " even with lazy unmount.")], false)
      else (e5, true)

/-- The tool list of `check_dependencies` (z.py lines 133-136). -/
def required_tools : List String :=
  ["lsblk", "btrfs", "mkfs.btrfs", "mkfs.fat", "pacstrap", "genfstab", "arch-chroot"]

/-- Mirror of `check_dependencies` (z.py lines 131-145): `none` when every
required tool is found, otherwise `some msg` where `msg` is the line handed to
`log_func` just before the `RuntimeError` is raised. -/
def check_dependencies (which : String → Bool) : Option String :=
  let missing := required_tools.filter (fun t => !(which t))
  if missing.isEmpty then none
  else some ("Error: Missing required tools: " ++ String.intercalate ", " missing
             ++ "\nPlease install: btrfs-progs, dosfstools, arch-install-scripts")

/-- The oracle for one run: tool availability and, per call site of the
source, the return code (and captured stdout where the source reads it) of
the external process. -/
structure Env where
  toolPresent : String → Bool
  blkidRC : Nat
  blkidOut : String
  mountpointRC : Nat
  subvolRC : Nat
  subvolOut : String
  cu0 : CleanupRCs
  cu1 : CleanupRCs
  cu2 : CleanupRCs
  cu3 : CleanupRCs
  rcMkfsSeed : Nat
  rcMkfsSprout : Nat
  rcMkfsFat : Nat
  rcMountTop : Nat
  rcSubvolDelete : Nat
  rcSubvolCreate : Nat
  rcMountSeed : Nat
  rcPacstrap : Nat
  rcMountEfiA : Nat
  rcFstabA : Nat
  rcChroot : Nat
  rcBtrfstune : Nat
  rcMountSeedB : Nat
  rcDevAdd : Nat
  rcMountSprout : Nat
  rcMountEfiB : Nat
  rcFstabB : Nat

/-- The hook list for mkinitcpio (z.py line 257). -/
def mkinitcpio_hooks : String :=
  "base udev autodetect microcode modconf kms keyboard block btrfs filesystems"

/-- The grub-install options (z.py line 258). -/
def grub_options : String :=
  "--target=x86_64-efi --efi-directory=/efi --boot-directory=/boot --bootloader-id=GRUB"

/-- Mirror of the `install_script` list (z.py lines 260-280): the ordered
in-chroot commands, with the configuration fields and the sprout PARTUUID
interpolated exactly as the source f-strings do. -/
def install_script (cfg : InstallConfig) (sprout_partuuid : String) : List String :=
  ["hwclock --systohc",
   "echo '" ++ cfg.hostname ++ "' > /etc/hostname",
   "echo 'KEYMAP=us' > /etc/vconsole.conf",
   "sed -i 's/^#en_US.UTF-8 UTF-8/en_US.UTF-8 UTF-8/' /etc/locale.gen",
   "locale-gen",
   "echo 'LANG=en_US.UTF-8' > /etc/locale.conf",
   "ln -sf /usr/share/zoneinfo/" ++ cfg.timezone ++ " /etc/localtime",
   "sed -i \"s/^HOOKS=.*/HOOKS=(" ++ mkinitcpio_hooks ++ ")/\" /etc/mkinitcpio.conf",
   "echo 'root:" ++ cfg.root_password ++ "' | chpasswd",
   "useradd -m -G wheel -s /usr/bin/bash " ++ cfg.username,
   "echo '" ++ cfg.username ++ ":" ++ cfg.user_password ++ "' | chpasswd",
   "echo '" ++ cfg.username ++ " ALL=(ALL:ALL) ALL' > /etc/sudoers.d/" ++ cfg.username,
   "systemctl enable systemd-timesyncd",
   "grub-install " ++ grub_options,
   "echo 'GRUB_DISABLE_OS_PROBER=false' >> /etc/default/grub",
   "grub-mkconfig -o /boot/grub/grub.cfg",
   "sed -i 's/root=UUID=[A-Fa-f0-9-]*/root=PARTUUID=" ++ sprout_partuuid ++ "/g' /boot/grub/grub.cfg",
   "passwd -l root",
   "mkinitcpio -P"]

/-- Python `str.strip()`: drop whitespace from both ends. -/
def pyStrip (s : String) : String :=
  ⟨((s.data.dropWhile Char.isWhitespace).reverse.dropWhile Char.isWhitespace).reverse⟩

/-- Split a character list at newline characters (model of `str.splitlines`;
a trailing newline yields one trailing empty line, which no test below can
tell apart from Python's behaviour of omitting it). -/
def splitOnNl : List Char → List (List Char)
  | [] => [[]]
  | c :: cs =>
    if c = '\n' then [] :: splitOnNl cs
    else
      match splitOnNl cs with
      | [] => [[c]]
      | l :: ls => (c :: l) :: ls

/-- Python `str.endswith` on character lists. -/
def endsWithL (l suffix : List Char) : Bool :=
  suffix.reverse.isPrefixOf l.reverse

/-- The stale-`@` test of z.py line 237: some line of `btrfs subvolume list`
output ends in `" @"` or `"path @"`. -/
def staleAt (out : String) : Bool :=
  (splitOnNl out.data).any (fun l => endsWithL l " @".data || endsWithL l "path @".data)

/-- One sequential step of the orchestrator: the events it contributes and,
when it fails, the control effect (a `sys.exit` or an uncaught exception)
that cuts the run short there. -/
abbrev Step := List Event × Option RunOutcome

/-- Sequencing with fail-fast semantics: steps run in order until the first
one that carries a control effect; later steps contribute nothing. -/
def runSteps : List Step → List Event × RunOutcome
  | [] => ([], .finished)
  | (evs, some o) :: _ => (evs, o)
  | (evs, none) :: rest =>
    let r := runSteps rest
    (evs ++ r.1, r.2)

/-- Hand one line to the sink. -/
def logStep (s : String) : Step := ([Event.log s], none)

/-- Mirror of `run_live_command` as used through the `run` helper of
`perform_installation` (z.py lines 95-129, 194-204): every such call site
requests `check` (the default), so on a non-zero status the failure line is
logged and `CalledProcessError(returncode, command)` propagates uncaught.
In a dry run it only echoes the command.  Streamed process output is
modelled as empty. -/
def liveStep (dry : Bool) (a : Act) (rc : Nat) : Step :=
  if dry then ([Event.log ("[DRY RUN] Would execute: " ++ pyCmdStr (render a))], none)
  else if rc ≠ 0 then
    ([Event.act a rc, Event.log ("Command failed with return code " ++ toString rc)],
     some (.procError rc (render a)))
  else ([Event.act a rc], none)

/-- Mirror of a captured `run_command` call with the default `check=True`
(z.py lines 32-60, used via `run(..., capture_output=True)`): on a non-zero
status it prints the failure (to stdout, not the sink) and `sys.exit(1)`s. -/
def captureStep (a : Act) (rc : Nat) : Step :=
  ([Event.act a rc], if rc ≠ 0 then some (.sysExit 1) else none)

/-- Mirror of the direct `subprocess.run(..., check=True)` calls that write
fstab (z.py lines 252, 313): a non-zero status raises
`CalledProcessError(rc, cmd)` which nothing catches. -/
def fstabStep (a : Act) (rc : Nat) : Step :=
  ([Event.act a rc], if rc ≠ 0 then some (.procError rc (render a)) else none)

/-- The body of `perform_installation` after the dependency check
(z.py lines 193-319) as its ordered step list.  Each entry mirrors one
source call site, in source order. -/
def performSteps (cfg : InstallConfig) (env : Env) : List Step :=
  let dry := cfg.dry_run
  let fuser := env.toolPresent "fuser"
  -- z.py lines 208-213: in a dry run the PARTUUID is a fixed placeholder,
  -- otherwise blkid is executed (captured) and its output stripped
  let sprout_partuuid := if dry then "DRY-RUN-UUID-1234" else pyStrip env.blkidOut
  [logStep "--- Starting Installation ---"]
  ++ (if dry then [] else [captureStep (.blkid cfg.sprout_device) env.blkidRC])
  ++ [logStep ("Sprout PARTUUID: " ++ sprout_partuuid)]
  -- z.py lines 219-223: mountpoint pre-check and recovery, live runs only
  ++ (if dry then [] else
      [([Event.act (.mountpointQ "/mnt") env.mountpointRC]
        ++ (if env.mountpointRC = 0 then
              [Event.log "/mnt is already mounted. Unmounting..."]
              ++ (cleanup_mount fuser env.cu0 "/mnt").1
            else []), none)])
  ++ [logStep "Creating filesystems...",
      liveStep dry (.mkfsBtrfs "SEED" cfg.seed_device) env.rcMkfsSeed,
      liveStep dry (.mkfsBtrfs "SPROUT" cfg.sprout_device) env.rcMkfsSprout,
      liveStep dry (.mkfsFat cfg.efi_device) env.rcMkfsFat,
      logStep "Filesystems created successfully.",
      liveStep dry (.mountSubvol "/" cfg.seed_device "/mnt") env.rcMountTop]
  -- z.py lines 234-238: the stale-@ check runs only live (captured list)
  ++ (if dry then [] else
      [captureStep (.subvolList "/mnt") env.subvolRC]
      ++ (if staleAt env.subvolOut then
            [liveStep dry (.subvolDelete "/mnt/@") env.rcSubvolDelete]
          else []))
  ++ [liveStep dry (.subvolCreate "/mnt/@") env.rcSubvolCreate,
      -- z.py line 241: cleanup_mount has no dry_run parameter and spawns
      -- real umount processes even in a dry run
      ((cleanup_mount fuser env.cu1 "/mnt").1, none),
      liveStep dry (.mountSubvol "/@" cfg.seed_device "/mnt") env.rcMountSeed,
      logStep ("Installing packages: " ++ String.intercalate " " cfg.packages),
      liveStep dry (.pacstrap cfg.packages) env.rcPacstrap,
      liveStep dry (.mountM cfg.efi_device "/mnt/efi") env.rcMountEfiA]
  ++ (if dry then [logStep "[DRY RUN] Would generate fstab"]
      else [fstabStep .genfstabU env.rcFstabA])
  ++ [liveStep dry (.archChroot (String.intercalate "\n" (install_script cfg sprout_partuuid))) env.rcChroot,
      logStep "--- Finalizing Seed/Sprout setup ---",
      ((cleanup_mount fuser env.cu2 "/mnt").1, none),
      logStep ("Converting " ++ cfg.seed_device ++ " to a seed device..."),
      liveStep dry (.btrfstune cfg.seed_device) env.rcBtrfstune,
      logStep "Mounting seed device to add sprout...",
      liveStep dry (.mountSubvol "/@" cfg.seed_device "/mnt") env.rcMountSeedB,
      logStep ("Adding " ++ cfg.sprout_device ++ " as sprout device..."),
      liveStep dry (.devAdd cfg.sprout_device) env.rcDevAdd,
      logStep "Unmounting and remounting sprout device...",
      ((cleanup_mount fuser env.cu3 "/mnt").1, none),
      liveStep dry (.mountSubvol "/@" cfg.sprout_device "/mnt") env.rcMountSprout,
      logStep "Mounting EFI partition...",
      liveStep dry (.mountM cfg.efi_device "/mnt/efi") env.rcMountEfiB,
      logStep "Generating final fstab with PARTUUIDs..."]
  ++ (if dry then [logStep "[DRY RUN] Would generate final fstab"]
      else [fstabStep .genfstabP env.rcFstabB])
  ++ [logStep "\n################################################################",
      logStep "#                   INSTALLATION COMPLETE                      #",
      logStep "################################################################\n"]

/-- Running `perform_installation` (z.py lines 181-319): the chronological
event list and how the call ended.  A failing dependency check logs its
message, raises `RuntimeError`, and the orchestrator catches it and returns
normally (z.py lines 187-191). -/
def perform_installation (cfg : InstallConfig) (env : Env) : List Event × RunOutcome :=
  match check_dependencies env.toolPresent with
  | some msg => ([Event.log msg], .finished)
  | none => runSteps (performSteps cfg env)

/-- Happy-path oracle: every tool present, `/mnt` not initially a mountpoint,
every external process succeeds; `b` is what `blkid` prints, `s` what
`btrfs subvolume list` prints. -/
def okEnv (b s : String) : Env :=
  { toolPresent := fun _ => true
    blkidRC := 0, blkidOut := b
    mountpointRC := 1
    subvolRC := 0, subvolOut := s
    cu0 := ⟨0, 0, 0⟩, cu1 := ⟨0, 0, 0⟩, cu2 := ⟨0, 0, 0⟩, cu3 := ⟨0, 0, 0⟩
    rcMkfsSeed := 0, rcMkfsSprout := 0, rcMkfsFat := 0, rcMountTop := 0
    rcSubvolDelete := 0, rcSubvolCreate := 0, rcMountSeed := 0, rcPacstrap := 0
    rcMountEfiA := 0, rcFstabA := 0, rcChroot := 0, rcBtrfstune := 0
    rcMountSeedB := 0, rcDevAdd := 0, rcMountSprout := 0, rcMountEfiB := 0
    rcFstabB := 0 }

/-- Mirror of Python's `subprocess.CompletedProcess` as far as `run_command`
uses it. -/
structure CompletedProcess where
  args : PyCmd
  returncode : Nat
  stdout : String
  stderr : String
deriving Repr, DecidableEq

/-- What a `run_command` call does to its caller: return a completed process,
or terminate the whole interpreter (`sys.exit`).  There is no constructor for
a propagating `CalledProcessError`: `run_command` always catches it
(z.py lines 55-60). -/
inductive ExecResult where
  | ok (r : CompletedProcess)
  | sysExit (code : Nat)
deriving Repr, DecidableEq

/-- Mirror of `run_command` (z.py lines 32-60).  `rc`, `out`, `err` are the
oracle for the spawned process.  With `check=True` a non-zero status raises
`CalledProcessError` inside `subprocess.run`; the handler prints the error to
stdout and calls `sys.exit(1)`, so neither the command nor the exit code nor
the stderr reaches the caller.  With `check=False` no exception is raised and
the completed process is returned. -/
def run_command (command : PyCmd) (check dry : Bool) (rc : Nat) (out err : String) :
    ExecResult :=
  if dry then .ok ⟨command, 0, "", ""⟩
  else if rc = 0 then .ok ⟨command, rc, out, err⟩
  else if check then .sysExit 1
  else .ok ⟨command, rc, out, err⟩

/-- What a `run_live_command` call does to its caller: return normally, or
raise `CalledProcessError(returncode, command)` — mirroring z.py line 129,
which passes no stderr (stderr was merged into the streamed stdout). -/
inductive LiveOutcome where
  | ok
  | calledProcessError (returncode : Nat) (cmd : PyCmd) (stderr : Option String)
deriving Repr, DecidableEq

/-- Mirror of `run_live_command` (z.py lines 95-129): the lines handed to
`log_func` and the control outcome.  `outLines` is the oracle for the
process's streamed output, `rc` for its exit status. -/
def run_live_command (command : PyCmd) (check dry : Bool) (rc : Nat)
    (outLines : List String) : List String × LiveOutcome :=
  if dry then (["[DRY RUN] Would execute: " ++ pyCmdStr command], .ok)
  else if check ∧ rc ≠ 0 then
    (outLines ++ ["Command failed with return code " ++ toString rc],
     .calledProcessError rc command none)
  else (outLines, .ok)

/-- Substring scan: does `needle` occur in the list?  (Tail recursion in the
disjunction keeps its evaluation shallow.) -/
def strContainsAux (needle : List Char) : List Char → Bool
  | [] => needle.isEmpty
  | c :: cs => needle.isPrefixOf (c :: cs) || strContainsAux needle cs

/-- Substring test on strings (Python `needle in hay`). -/
def strContains (hay needle : String) : Bool :=
  strContainsAux needle.data hay.data

/-- The character class of the bracket expression `[A-Fa-f0-9-]` in the sed
command of z.py line 277. -/
def hexDashChar (c : Char) : Bool :=
  ('A' ≤ c && c ≤ 'F') || ('a' ≤ c && c ≤ 'f') || ('0' ≤ c && c ≤ '9') || c == '-'

/-- The literal part `root=UUID=` of the sed pattern of z.py line 277. -/
def uuidPat : List Char := "root=UUID=".data

/-- The sed replacement `root=PARTUUID=<sprout_partuuid>` of z.py line 277. -/
def partuuidRepl (pu : List Char) : List Char := "root=PARTUUID=".data ++ pu

/-- Model of the substitution `s/root=UUID=[A-Fa-f0-9-]*/root=PARTUUID=<pu>/g`
that the chroot script runs on `/boot/grub/grub.cfg` (z.py line 277):
scan left to right; at a position where the literal `root=UUID=` matches,
consume it plus the longest following run of `[A-Fa-f0-9-]` characters
(POSIX leftmost-longest), emit the replacement, and continue after the match;
`/g` keeps scanning the rest.  The pattern contains no anchors and cannot
match a newline, so substituting over the whole text agrees with sed's
line-by-line behaviour. -/
def sedRootSub (pu : List Char) : List Char → List Char
  | [] => []
  | c :: cs =>
    if uuidPat.isPrefixOf (c :: cs) then
      partuuidRepl pu ++ sedRootSub pu (((c :: cs).drop 10).dropWhile hexDashChar)
    else
      c :: sedRootSub pu cs
termination_by s => s.length
decreasing_by
  · calc ((List.drop 10 (c :: cs)).dropWhile hexDashChar).length
        ≤ (List.drop 10 (c :: cs)).length := (List.dropWhile_suffix _).length_le
      _ < (c :: cs).length := by
          rw [List.length_drop]
          exact Nat.sub_lt (by simp) (by omega)
  · simp

/-- A live-mode example configuration (the end-to-end scenario of the spec,
section 8, with passwords filled in). -/
def cfgLiveEx : InstallConfig :=
  ⟨"/dev/vda1", "/dev/vda2", "/dev/vda3", "arch-z", "zeev", "Europe/Helsinki",
   "rootpw", "userpw", ["base", "linux"], false⟩

/-- The same configuration in dry-run mode, with recognizable secrets. -/
def cfgDryEx : InstallConfig :=
  ⟨"/dev/vda1", "/dev/vda2", "/dev/vda3", "arch-z", "zeev", "Europe/Helsinki",
   "S3CR3T-r00t-pw", "S3CR3T-user-pw", ["base", "linux"], true⟩

/-- A happy-path oracle except that `pacstrap` is not installed. -/
def envMissingPacstrap : Env :=
  { okEnv "" "" with toolPresent := fun t => !(t == "pacstrap") }

/-- A happy-path oracle except that `arch-chroot` is not installed. -/
def envMissingChroot : Env :=
  { okEnv "" "" with toolPresent := fun t => !(t == "arch-chroot") }

/-- World model for the `/mnt` mount point: replay the spawned commands,
flipping the mounted bit on each successful `mount ... /mnt`,
`umount -R /mnt` or `umount -R -l /mnt` (a recursive unmount takes the whole
subtree down, so tracking the root bit suffices). -/
def mntMounted (evs : List Event) (init : Bool) : Bool :=
  evs.foldl (fun cur e =>
    match e with
    | .act (.mountSubvol _ _ mp) rc => if mp = "/mnt" && rc = 0 then true else cur
    | .act (.umountR mp) rc => if mp = "/mnt" && rc = 0 then false else cur
    | .act (.umountLazy mp) rc => if mp = "/mnt" && rc = 0 then false else cur
    | _ => cur) init

/-! ### Trace lemmas

Explicit transcripts of the happy-path live run, shared by several claims. -/

/-- The sink transcript of a successful live run (no stale `@` subvolume):
eighteen lines, none of which mentions the passwords. -/
theorem sinkLines_live (sd spd efi hn un tz rp up : String) (pkgs : List String) (b : String) :
    sinkLines (perform_installation ⟨sd, spd, efi, hn, un, tz, rp, up, pkgs, false⟩ (okEnv b "")).1 =
      ["--- Starting Installation ---",
       "Sprout PARTUUID: " ++ pyStrip b,
       "Creating filesystems...",
       "Filesystems created successfully.",
       "Unmounting /mnt...",
       "Installing packages: " ++ String.intercalate " " pkgs,
       "--- Finalizing Seed/Sprout setup ---",
       "Unmounting /mnt...",
       "Converting " ++ sd ++ " to a seed device...",
       "Mounting seed device to add sprout...",
       "Adding " ++ spd ++ " as sprout device...",
       "Unmounting and remounting sprout device...",
       "Unmounting /mnt...",
       "Mounting EFI partition...",
       "Generating final fstab with PARTUUIDs...",
       "\n################################################################",
       "#                   INSTALLATION COMPLETE                      #",
       "################################################################\n"] := rfl

/-- The subprocesses of a successful live run (no stale `@` subvolume), in
order. -/
theorem acts_live (sd spd efi hn un tz rp up : String) (pkgs : List String) (b : String) :
    actsOf (perform_installation ⟨sd, spd, efi, hn, un, tz, rp, up, pkgs, false⟩ (okEnv b "")).1 =
      [Act.blkid spd, Act.mountpointQ "/mnt", Act.mkfsBtrfs "SEED" sd, Act.mkfsBtrfs "SPROUT" spd,
       Act.mkfsFat efi, Act.mountSubvol "/" sd "/mnt", Act.subvolList "/mnt", Act.subvolCreate "/mnt/@",
       Act.umountR "/mnt", Act.mountSubvol "/@" sd "/mnt", Act.pacstrap pkgs, Act.mountM efi "/mnt/efi",
       Act.genfstabU,
       Act.archChroot (String.intercalate "\n" (install_script ⟨sd, spd, efi, hn, un, tz, rp, up, pkgs, false⟩ (pyStrip b))),
       Act.umountR "/mnt", Act.btrfstune sd, Act.mountSubvol "/@" sd "/mnt", Act.devAdd spd,
       Act.umountR "/mnt", Act.mountSubvol "/@" spd "/mnt", Act.mountM efi "/mnt/efi", Act.genfstabP] := rfl

/-- The subprocesses of a successful live run whose `btrfs subvolume list`
output reports a stale `@` subvolume: the same as `acts_live` but with the
`subvolume delete` inserted between the listing and the creation. -/
theorem acts_live_stale (sd spd efi hn un tz rp up : String) (pkgs : List String) (b s : String)
    (h : staleAt s = true) :
    actsOf (perform_installation ⟨sd, spd, efi, hn, un, tz, rp, up, pkgs, false⟩ (okEnv b s)).1 =
      [Act.blkid spd, Act.mountpointQ "/mnt", Act.mkfsBtrfs "SEED" sd, Act.mkfsBtrfs "SPROUT" spd,
       Act.mkfsFat efi, Act.mountSubvol "/" sd "/mnt", Act.subvolList "/mnt", Act.subvolDelete "/mnt/@",
       Act.subvolCreate "/mnt/@",
       Act.umountR "/mnt", Act.mountSubvol "/@" sd "/mnt", Act.pacstrap pkgs, Act.mountM efi "/mnt/efi",
       Act.genfstabU,
       Act.archChroot (String.intercalate "\n" (install_script ⟨sd, spd, efi, hn, un, tz, rp, up, pkgs, false⟩ (pyStrip b))),
       Act.umountR "/mnt", Act.btrfstune sd, Act.mountSubvol "/@" sd "/mnt", Act.devAdd spd,
       Act.umountR "/mnt", Act.mountSubvol "/@" spd "/mnt", Act.mountM efi "/mnt/efi", Act.genfstabP] := by
  unfold perform_installation performSteps
  dsimp only [okEnv]
  rw [h]
  rfl

/-! ### Claims -/

/-- C1: the claim reads "with dry_run=true, perform_installation mutates no
external state".  The code violates it: `cleanup_mount` takes no `dry_run`
parameter, and `perform_installation` calls it unconditionally (z.py lines
241, 292, 304), so a dry run spawns three real `umount -R /mnt` processes —
mount-table mutations — while still completing normally.  This theorem
evaluates the dry-run configuration and exhibits the three real unmount
subprocesses. -/
theorem c1_dry_run_spawns_real_umounts :
    actsOf (perform_installation cfgDryEx (okEnv "b" "")).1 =
      [Act.umountR "/mnt", Act.umountR "/mnt", Act.umountR "/mnt"] ∧
    (perform_installation cfgDryEx (okEnv "b" "")).2 = RunOutcome.finished := by
  constructor <;> decide

/-- C2 counterexample: the claim says every run of `perform_installation`
leaves `/mnt` unmounted when it ends.  This concrete successful live run ends
with `/mnt` still mounted (replaying the spawned mount/umount commands from
an initially unmounted `/mnt` yields the mounted state). -/
theorem c2_counterexample_run_ends_mounted :
    (perform_installation cfgLiveEx (okEnv "dead-beef\n" "")).2 = RunOutcome.finished ∧
    mntMounted (perform_installation cfgLiveEx (okEnv "dead-beef\n" "")).1 false = true := by
  constructor <;> decide

/-- C2 amended: in every run that completes successfully, `/mnt` is left
MOUNTED (the sprout root, plus `/mnt/efi`) when the run ends; the
orchestrator unmounts `/mnt` only before each remount during the run. -/
theorem c2_amended_successful_run_ends_with_mnt_mounted
    (sd spd efi hn un tz rp up : String) (pkgs : List String) (b : String) :
    (perform_installation ⟨sd, spd, efi, hn, un, tz, rp, up, pkgs, false⟩ (okEnv b "")).2 =
      RunOutcome.finished ∧
    mntMounted (perform_installation ⟨sd, spd, efi, hn, un, tz, rp, up, pkgs, false⟩ (okEnv b "")).1
      false = true :=
  ⟨rfl, rfl⟩

set_option maxRecDepth 8000 in
/-- C3 counterexample: the claim says the passwords never appear in any line
delivered to the sink, in live or dry-run mode.  In dry-run mode the echoed
`arch-chroot` command (z.py line 285 via the dry-run echo of z.py line 99)
contains both passwords verbatim: some sink line of this dry run contains
both `S3CR3T-r00t-pw` and `S3CR3T-user-pw`, the two configured passwords. -/
theorem c3_counterexample_dry_run_logs_passwords :
    ((sinkLines (perform_installation cfgDryEx (okEnv "b" "")).1).any
      (fun l => strContains l "S3CR3T-r00t-pw" && strContains l "S3CR3T-user-pw")) = true := by
  decide

/-- C3 amended: in live (non-dry-run) mode the sink transcript is independent
of the password values — two configurations differing only in
`root_password`/`user_password` produce identical sink transcripts; the leak
exists only in the dry-run echo of the chroot script. -/
theorem c3_amended_live_sink_independent_of_passwords
    (sd spd efi hn un tz : String) (pkgs : List String) (b : String)
    (rp1 up1 rp2 up2 : String) :
    sinkLines (perform_installation ⟨sd, spd, efi, hn, un, tz, rp1, up1, pkgs, false⟩ (okEnv b "")).1 =
    sinkLines (perform_installation ⟨sd, spd, efi, hn, un, tz, rp2, up2, pkgs, false⟩ (okEnv b "")).1 :=
  (sinkLines_live sd spd efi hn un tz rp1 up1 pkgs b).trans
    (sinkLines_live sd spd efi hn un tz rp2 up2 pkgs b).symm

/-- C4 counterexample: the claim says every `check=true` execution that exits
non-zero surfaces a `CommandFailed` condition carrying the command, the exit
code and the captured stderr.  The captured layer (`run_command`) does not:
it terminates the interpreter with `sys.exit(1)`, and two failures with
different commands, different exit codes and different stderr produce the
identical result, so none of that information reaches the caller. -/
theorem c4_counterexample_run_command_drops_failure_details :
    run_command (.sh "mkfs.btrfs -f -L SEED /dev/vda1") true false 2 "" "errA" =
      ExecResult.sysExit 1 ∧
    run_command (.sh "pacstrap") true false 3 "" "errB" = ExecResult.sysExit 1 := by
  constructor <;> rfl

/-- C4 amended: on a non-zero exit with `check=true`, the streamed layer
(`run_live_command`) logs the failure line and raises
`CalledProcessError(returncode, command)` — carrying the command and exit
code but no stderr, which was merged into the stream — aborting the phase;
the captured layer (`run_command`) instead prints the error and terminates
the whole process via `sys.exit(1)`, surfacing neither command nor exit code
to the caller. -/
theorem c4_amended_failure_surfacing
    (command : PyCmd) (rc : Nat) (outLines : List String) (out err : String)
    (h : rc ≠ 0) :
    run_live_command command true false rc outLines =
      (outLines ++ ["Command failed with return code " ++ toString rc],
       LiveOutcome.calledProcessError rc command none) ∧
    run_command command true false rc out err = ExecResult.sysExit 1 := by
  constructor
  · simp [run_live_command, h]
  · simp [run_command, h]

/-- C4 amended, witness at returncode 2. -/
theorem c4_amended_failure_surfacing_witness :
    (2 : Nat) ≠ 0 ∧
    (run_live_command (.sh "mount -m /dev/vda3 /mnt/efi") true false 2 ["busy"] =
      (["busy"] ++ ["Command failed with return code " ++ toString (2 : Nat)],
       LiveOutcome.calledProcessError 2 (.sh "mount -m /dev/vda3 /mnt/efi") none) ∧
     run_command (.sh "mount -m /dev/vda3 /mnt/efi") true false 2 "" "boom" =
       ExecResult.sysExit 1) :=
  ⟨by decide, c4_amended_failure_surfacing (.sh "mount -m /dev/vda3 /mnt/efi") 2 ["busy"] "" "boom" (by decide)⟩

/-- C5 counterexample: the claim speaks of configurations with
`formatEfi=false`, but `InstallConfig` (z.py lines 19-30) has no such field:
the EFI format command is emitted unconditionally.  In this concrete run the
format command for the EFI device is among the spawned subprocesses. -/
theorem c5_counterexample_efi_always_formatted :
    Act.mkfsFat "/dev/vda3" ∈ actsOf (perform_installation cfgLiveEx (okEnv "b" "")).1 := by
  decide

/-- C5 amended: `InstallConfig` has no `formatEfi` option; every successful
live run emits the `mkfs.fat` format command for `efi_device` and also emits
the EFI mount step. -/
theorem c5_amended_every_run_formats_and_mounts_efi
    (sd spd efi hn un tz rp up : String) (pkgs : List String) (b : String) :
    Act.mkfsFat efi ∈
      actsOf (perform_installation ⟨sd, spd, efi, hn, un, tz, rp, up, pkgs, false⟩ (okEnv b "")).1 ∧
    Act.mountM efi "/mnt/efi" ∈
      actsOf (perform_installation ⟨sd, spd, efi, hn, un, tz, rp, up, pkgs, false⟩ (okEnv b "")).1 := by
  rw [acts_live]
  exact ⟨by simp, by simp⟩

/-- C6: in a live run whose `btrfs subvolume list` output reports a top-level
subvolume named `@` (the source's test, z.py line 237), the
`btrfs subvolume delete /mnt/@` step is spawned strictly before the
`btrfs su cr /mnt/@` step, so the create never sees a pre-existing `@`. -/
theorem c6_stale_subvolume_deleted_before_create
    (sd spd efi hn un tz rp up : String) (pkgs : List String) (b s : String)
    (h : staleAt s = true) :
    ∃ i j, i < j ∧
      (actsOf (perform_installation ⟨sd, spd, efi, hn, un, tz, rp, up, pkgs, false⟩ (okEnv b s)).1).get? i
        = some (Act.subvolDelete "/mnt/@") ∧
      (actsOf (perform_installation ⟨sd, spd, efi, hn, un, tz, rp, up, pkgs, false⟩ (okEnv b s)).1).get? j
        = some (Act.subvolCreate "/mnt/@") := by
  rw [acts_live_stale sd spd efi hn un tz rp up pkgs b s h]
  exact ⟨7, 8, by omega, rfl, rfl⟩

/-- C6 witness: a concrete `btrfs subvolume list` transcript with a stale `@`
subvolume passes the source's test, and the delete-before-create ordering
holds on the resulting concrete run. -/
theorem c6_stale_subvolume_deleted_before_create_witness :
    staleAt "ID 256 gen 7 top level 5 path @" = true ∧
    (∃ i j, i < j ∧
      (actsOf (perform_installation ⟨"/dev/vda1", "/dev/vda2", "/dev/vda3", "arch-z", "zeev",
          "Europe/Helsinki", "rootpw", "userpw", ["base", "linux"], false⟩
          (okEnv "dead-beef\n" "ID 256 gen 7 top level 5 path @")).1).get? i
        = some (Act.subvolDelete "/mnt/@") ∧
      (actsOf (perform_installation ⟨"/dev/vda1", "/dev/vda2", "/dev/vda3", "arch-z", "zeev",
          "Europe/Helsinki", "rootpw", "userpw", ["base", "linux"], false⟩
          (okEnv "dead-beef\n" "ID 256 gen 7 top level 5 path @")).1).get? j
        = some (Act.subvolCreate "/mnt/@")) :=
  ⟨by decide,
   c6_stale_subvolume_deleted_before_create "/dev/vda1" "/dev/vda2" "/dev/vda3" "arch-z" "zeev"
     "Europe/Helsinki" "rootpw" "userpw" ["base", "linux"] "dead-beef\n"
     "ID 256 gen 7 top level 5 path @" (by decide)⟩

/-- C8: if the preflight dependency check fails, the whole run consists of
the single error line handed to the sink — no external command is spawned,
so in particular no format, mount or other mutation is attempted. -/
theorem c8_missing_tool_aborts_before_any_command
    (cfg : InstallConfig) (env : Env) (m : String)
    (h : check_dependencies env.toolPresent = some m) :
    perform_installation cfg env = ([Event.log m], RunOutcome.finished) ∧
    actsOf (perform_installation cfg env).1 = [] := by
  have h1 : perform_installation cfg env = ([Event.log m], RunOutcome.finished) := by
    unfold perform_installation
    rw [h]
  exact ⟨h1, by rw [h1]; rfl⟩

/-- C8 witness: with `pacstrap` missing, the check fails with the source's
message and the run spawns nothing. -/
theorem c8_missing_tool_aborts_before_any_command_witness :
    check_dependencies envMissingPacstrap.toolPresent =
      some "Error: Missing required tools: pacstrap\nPlease install: btrfs-progs, dosfstools, arch-install-scripts" ∧
    (perform_installation cfgLiveEx envMissingPacstrap =
      ([Event.log "Error: Missing required tools: pacstrap\nPlease install: btrfs-progs, dosfstools, arch-install-scripts"],
       RunOutcome.finished) ∧
     actsOf (perform_installation cfgLiveEx envMissingPacstrap).1 = []) :=
  ⟨by decide,
   c8_missing_tool_aborts_before_any_command cfgLiveEx envMissingPacstrap _ (by decide)⟩

/-- C9: when the first plain recursive unmount succeeds, `cleanup_mount`
returns success with exactly one spawned `umount` and no `fuser -k` kill:
its whole event list is the opening log line plus the single unmount. -/
theorem c9_first_unmount_success_single_attempt_no_kill
    (mp : String) (fuserAvail : Bool) (o : CleanupRCs) (h : o.rc1 = 0) :
    cleanup_mount fuserAvail o mp =
      ([Event.log ("Unmounting " ++ mp ++ "..."), Event.act (.umountR mp) 0], true) ∧
    actsOf (cleanup_mount fuserAvail o mp).1 = [Act.umountR mp] := by
  have h1 : cleanup_mount fuserAvail o mp =
      ([Event.log ("Unmounting " ++ mp ++ "..."), Event.act (.umountR mp) 0], true) := by
    unfold cleanup_mount
    rw [h]
    rfl
  exact ⟨h1, by rw [h1]; rfl⟩

/-- C9 witness: a busy-looking oracle whose first unmount nevertheless
succeeds. -/
theorem c9_first_unmount_success_single_attempt_no_kill_witness :
    (⟨0, 1, 1⟩ : CleanupRCs).rc1 = 0 ∧
    (cleanup_mount true ⟨0, 1, 1⟩ "/mnt" =
      ([Event.log ("Unmounting " ++ "/mnt" ++ "..."), Event.act (.umountR "/mnt") 0], true) ∧
     actsOf (cleanup_mount true ⟨0, 1, 1⟩ "/mnt").1 = [Act.umountR "/mnt"]) :=
  ⟨by decide, c9_first_unmount_success_single_attempt_no_kill "/mnt" true ⟨0, 1, 1⟩ (by decide)⟩

/-- C10: when the dependency check fails, `perform_installation` catches the
`RuntimeError` and returns normally — the outcome is the same
`RunOutcome.finished` a fully successful run produces, and the sink's single
line is the only failure signal. -/
theorem c10_missing_deps_indistinguishable_normal_return
    (cfg : InstallConfig) (env : Env) (m : String)
    (h : check_dependencies env.toolPresent = some m) :
    (perform_installation cfg env).2 = RunOutcome.finished ∧
    sinkLines (perform_installation cfg env).1 = [m] ∧
    (perform_installation cfgLiveEx (okEnv "dead-beef\n" "")).2 = RunOutcome.finished := by
  have h1 : perform_installation cfg env = ([Event.log m], RunOutcome.finished) := by
    unfold perform_installation
    rw [h]
  exact ⟨by rw [h1], by rw [h1]; rfl, rfl⟩

/-- C10 witness: with `arch-chroot` missing, the run returns normally with
only the error line in the sink, matching the outcome of a successful run. -/
theorem c10_missing_deps_indistinguishable_normal_return_witness :
    check_dependencies envMissingChroot.toolPresent =
      some "Error: Missing required tools: arch-chroot\nPlease install: btrfs-progs, dosfstools, arch-install-scripts" ∧
    ((perform_installation cfgLiveEx envMissingChroot).2 = RunOutcome.finished ∧
     sinkLines (perform_installation cfgLiveEx envMissingChroot).1 =
       ["Error: Missing required tools: arch-chroot\nPlease install: btrfs-progs, dosfstools, arch-install-scripts"] ∧
     (perform_installation cfgLiveEx (okEnv "dead-beef\n" "")).2 = RunOutcome.finished) :=
  ⟨by decide,
   c10_missing_deps_indistinguishable_normal_return cfgLiveEx envMissingChroot _ (by decide)⟩

/-! ### C7: idempotence of the kernel-parameter rewrite

The sed substitution is modelled by `sedRootSub`.  The development shows the
output of one pass contains no further occurrence of the pattern
`root=UUID=` (given a PARTUUID over `[A-Fa-f0-9-]`), and that the
substitution fixes every pattern-free text, hence is idempotent. -/

theorem sedRootSub_cons_pos (pu : List Char) (c : Char) (cs : List Char)
    (h : uuidPat.isPrefixOf (c :: cs) = true) :
    sedRootSub pu (c :: cs) =
      partuuidRepl pu ++ sedRootSub pu (((c :: cs).drop 10).dropWhile hexDashChar) := by
  simp [sedRootSub, h]

theorem sedRootSub_cons_neg (pu : List Char) (c : Char) (cs : List Char)
    (h : ¬ uuidPat.isPrefixOf (c :: cs) = true) :
    sedRootSub pu (c :: cs) = c :: sedRootSub pu cs := by
  simp [sedRootSub, h]

theorem sedRootSub_nil (pu : List Char) : sedRootSub pu [] = [] := by
  simp [sedRootSub]

theorem prefix_append_split {α : Type} {l a b : List α} (h : l <+: a ++ b) :
    l.take a.length <+: a ∧ l.drop a.length <+: b := by
  obtain ⟨t, ht⟩ := h
  constructor
  · exact ⟨t.take (a.length - l.length), by
      rw [← List.take_append_eq_append_take, ht, List.take_left]⟩
  · exact ⟨t.drop (a.length - l.length), by
      rw [← List.drop_append_eq_append_drop, ht, List.drop_left]⟩

theorem infix_append_elim {α : Type} (l : List α) : ∀ (a b : List α), l <:+: a ++ b →
    l <:+: a ∨ l <:+: b ∨
      ∃ k, 0 < k ∧ k < l.length ∧ l.take k <:+ a ∧ l.drop k <+: b := by
  intro a
  induction a with
  | nil => exact fun b h => Or.inr (Or.inl (by simpa using h))
  | cons x a' ih =>
    intro b h
    rw [List.cons_append, List.infix_cons_iff] at h
    rcases h with hpre | hinf
    · have hpre' : l <+: (x :: a') ++ b := by simpa using hpre
      by_cases hlen : l.length ≤ (x :: a').length
      · left
        have h1 := (prefix_append_split hpre').1
        rw [List.take_of_length_le hlen] at h1
        exact h1.isInfix
      · push_neg at hlen
        have hsplit := prefix_append_split hpre'
        refine Or.inr (Or.inr ⟨(x :: a').length, by simp, hlen, ?_, hsplit.2⟩)
        have h2 : l.take (x :: a').length = x :: a' :=
          hsplit.1.eq_of_length (by rw [List.length_take]; omega)
        rw [h2]
    · rcases ih b hinf with h1 | h2 | ⟨k, hk0, hkl, hks, hkp⟩
      · exact Or.inl (List.infix_cons h1)
      · exact Or.inr (Or.inl h2)
      · exact Or.inr (Or.inr ⟨k, hk0, hkl, hks.trans (List.suffix_cons x a'), hkp⟩)

theorem uuidPat_not_infix_repl (pu : List Char)
    (hpu : ∀ c ∈ pu, hexDashChar c = true) : ¬ uuidPat <:+: partuuidRepl pu := by
  rintro ⟨w, v, hwv⟩
  cases w with
  | nil =>
    have hpre : uuidPat <+: "root=PARTUUID=".data ++ pu := by
      rw [show partuuidRepl pu = "root=PARTUUID=".data ++ pu from rfl] at hwv
      exact ⟨v, by simpa using hwv⟩
    have h1 := (prefix_append_split hpre).1
    rw [List.take_of_length_le (by decide)] at h1
    exact absurd h1 (by decide)
  | cons x w' =>
    have hd : (partuuidRepl pu).drop (x :: w').length = uuidPat ++ v := by
      rw [← hwv, List.append_assoc, List.drop_left]
    have hr : 'r' ∈ (partuuidRepl pu).drop (x :: w').length := by
      rw [hd]; exact List.mem_append.mpr (Or.inl (by decide))
    have hr1 : 'r' ∈ (partuuidRepl pu).drop 1 := by
      have he : (partuuidRepl pu).drop (x :: w').length =
          ((partuuidRepl pu).drop 1).drop w'.length := by
        rw [List.drop_drop]
        congr 1
        simp [Nat.add_comm]
      rw [he] at hr
      exact List.mem_of_mem_drop hr
    have hsplit : (partuuidRepl pu).drop 1 = "oot=PARTUUID=".data ++ pu := rfl
    rw [hsplit] at hr1
    rcases List.mem_append.mp hr1 with h | h
    · exact absurd h (by decide)
    · exact absurd (hpu _ h) (by decide)

theorem uuidPat_take_not_suffix_repl (pu : List Char)
    (hpu : ∀ c ∈ pu, hexDashChar c = true) {k : Nat} (hk0 : 0 < k) (hk9 : k ≤ 9) :
    ¬ uuidPat.take k <:+ partuuidRepl pu := by
  rintro ⟨w, hw⟩
  have hrtk : 'r' ∈ uuidPat.take k := by
    obtain ⟨n, rfl⟩ : ∃ n, k = n + 1 := ⟨k - 1, by omega⟩
    rw [show uuidPat = 'r' :: "oot=UUID=".data from rfl, List.take_succ_cons]
    exact List.mem_cons_self _ _
  have hlen : w.length + k = (partuuidRepl pu).length := by
    have hl := congrArg List.length hw
    rw [List.length_append, List.length_take] at hl
    have : min k uuidPat.length = k := by
      rw [show uuidPat.length = 10 from rfl]; omega
    omega
  have hlrepl : (partuuidRepl pu).length = 14 + pu.length := by
    simp [partuuidRepl]
    omega
  have hr : 'r' ∈ (partuuidRepl pu).drop w.length := by
    rw [← hw, List.drop_left]; exact hrtk
  have hr5 : 'r' ∈ (partuuidRepl pu).drop (5 + pu.length) := by
    have he : (partuuidRepl pu).drop w.length =
        ((partuuidRepl pu).drop (5 + pu.length)).drop (w.length - (5 + pu.length)) := by
      rw [List.drop_drop]
      congr 1
      omega
    rw [he] at hr
    exact List.mem_of_mem_drop hr
  have hsplit : (partuuidRepl pu).drop (5 + pu.length) =
      "root=PARTUUID=".data.drop (5 + pu.length) ++ pu.drop (5 + pu.length - 14) := by
    rw [show partuuidRepl pu = "root=PARTUUID=".data ++ pu from rfl,
        List.drop_append_eq_append_drop]
    rfl
  rw [hsplit] at hr5
  rcases List.mem_append.mp hr5 with h | h
  · have he : "root=PARTUUID=".data.drop (5 + pu.length) =
        ("root=PARTUUID=".data.drop 5).drop pu.length := by
      rw [List.drop_drop]
    rw [he] at h
    exact absurd (List.mem_of_mem_drop h) (by decide)
  · exact absurd (hpu _ (List.mem_of_mem_drop h)) (by decide)

theorem uuidPat_tail_ne_r : ∀ i : Fin uuidPat.length, 0 < i.val → uuidPat.get i ≠ 'r' := by
  decide

theorem sed_drop_prefix (pu : List Char) :
    ∀ (s : List Char) (j : Nat), 0 < j →
      uuidPat.drop j <+: sedRootSub pu s → uuidPat.drop j <+: s := by
  intro s
  induction s using sedRootSub.induct pu with
  | case1 =>
    intro j hj h
    rw [sedRootSub_nil pu, List.prefix_nil] at h
    simp [h]
  | case2 c cs hpre ih =>
    intro j hj h
    by_cases hj10 : 10 ≤ j
    · rw [List.drop_eq_nil_of_le (by rw [show uuidPat.length = 10 from rfl]; omega)]
      exact List.nil_prefix
    · push_neg at hj10
      have hlt : j < uuidPat.length := by rw [show uuidPat.length = 10 from rfl]; omega
      exfalso
      rw [sedRootSub_cons_pos pu c cs hpre, List.drop_eq_getElem_cons hlt,
          show ∀ t : List Char, partuuidRepl pu ++ t =
            'r' :: ("oot=PARTUUID=".data ++ pu ++ t) from fun t => rfl] at h
      have hhead := (List.cons_prefix_cons.mp h).1
      exact uuidPat_tail_ne_r ⟨j, hlt⟩ hj (by simpa using hhead)
  | case3 c cs hnpre ih =>
    intro j hj h
    by_cases hj10 : 10 ≤ j
    · rw [List.drop_eq_nil_of_le (by rw [show uuidPat.length = 10 from rfl]; omega)]
      exact List.nil_prefix
    · push_neg at hj10
      have hlt : j < uuidPat.length := by rw [show uuidPat.length = 10 from rfl]; omega
      rw [sedRootSub_cons_neg pu c cs hnpre, List.drop_eq_getElem_cons hlt] at h
      rw [List.drop_eq_getElem_cons hlt]
      have hh := List.cons_prefix_cons.mp h
      exact List.cons_prefix_cons.mpr ⟨hh.1, ih (j + 1) (by omega) hh.2⟩

theorem sed_no_pat (pu : List Char) (hpu : ∀ c ∈ pu, hexDashChar c = true) :
    ∀ s, ¬ uuidPat <:+: sedRootSub pu s := by
  intro s
  induction s using sedRootSub.induct pu with
  | case1 =>
    intro h
    rw [sedRootSub_nil pu, List.infix_nil] at h
    exact absurd h (by decide)
  | case2 c cs hpre ih =>
    intro h
    rw [sedRootSub_cons_pos pu c cs hpre] at h
    rcases infix_append_elim uuidPat _ _ h with h1 | h2 | ⟨k, hk0, hkl, hks, hkp⟩
    · exact uuidPat_not_infix_repl pu hpu h1
    · exact ih h2
    · exact uuidPat_take_not_suffix_repl pu hpu hk0
        (by rw [show uuidPat.length = 10 from rfl] at hkl; omega) hks
  | case3 c cs hnpre ih =>
    intro h
    rw [sedRootSub_cons_neg pu c cs hnpre] at h
    rcases List.infix_cons_iff.mp h with hp | hi
    · rw [show uuidPat = 'r' :: uuidPat.drop 1 from rfl] at hp
      have hh := List.cons_prefix_cons.mp hp
      have hcs := sed_drop_prefix pu cs 1 (by omega) hh.2
      have hpre2 : uuidPat <+: c :: cs := by
        rw [show uuidPat = 'r' :: uuidPat.drop 1 from rfl]
        exact List.cons_prefix_cons.mpr ⟨hh.1, hcs⟩
      exact hnpre (List.isPrefixOf_iff_prefix.mpr hpre2)
    · exact ih hi

theorem sed_fix_of_no_pat (pu : List Char) :
    ∀ s, ¬ uuidPat <:+: s → sedRootSub pu s = s := by
  intro s
  induction s using sedRootSub.induct pu with
  | case1 => intro _; exact sedRootSub_nil pu
  | case2 c cs hpre ih =>
    intro h
    exact absurd (List.isPrefixOf_iff_prefix.mp hpre).isInfix h
  | case3 c cs hnpre ih =>
    intro h
    rw [sedRootSub_cons_neg pu c cs hnpre, ih (fun hc => h (List.infix_cons hc))]

/-- The chroot script entry carrying the rewrite: the seventeenth command of
`install_script` is the sed invocation the model `sedRootSub` interprets. -/
theorem install_script_sed_entry (cfg : InstallConfig) (pu : String) :
    (install_script cfg pu).get? 16 =
      some ("sed -i 's/root=UUID=[A-Fa-f0-9-]*/root=PARTUUID=" ++ pu ++ "/g' /boot/grub/grub.cfg") :=
  rfl

/-- C7: the kernel-parameter rewrite of the chroot script (the sed
substitution `s/root=UUID=[A-Fa-f0-9-]*/root=PARTUUID=<pu>/g` of z.py line
277) is idempotent: for every boot-configuration text, applying it twice
yields the same result as applying it once.  The hypothesis states that the
interpolated PARTUUID consists of characters of the class `[A-Fa-f0-9-]`,
which every partition-table PARTUUID satisfies; without it the replacement
text itself could re-match and idempotence genuinely fails. -/
theorem c7_kernel_rewrite_idempotent (pu : List Char)
    (hpu : ∀ c ∈ pu, hexDashChar c = true) (s : List Char) :
    sedRootSub pu (sedRootSub pu s) = sedRootSub pu s :=
  sed_fix_of_no_pat pu _ (sed_no_pat pu hpu s)

/-- C7 witness: a concrete hex-dash PARTUUID and a concrete boot
configuration text. -/
theorem c7_kernel_rewrite_idempotent_witness :
    (∀ c ∈ "ab12-CD".data, hexDashChar c = true) ∧
    sedRootSub "ab12-CD".data
        (sedRootSub "ab12-CD".data "linux root=UUID=0123-abcd rw quiet".data) =
      sedRootSub "ab12-CD".data "linux root=UUID=0123-abcd rw quiet".data :=
  ⟨by decide, c7_kernel_rewrite_idempotent "ab12-CD".data (by decide) _⟩
